import Mathlib

/-!
# Verification of the ksystemstats registry + subscription + dispatch engine

Shallow embedding of `src/daemon.cpp` and `src/client.cpp` (the core of the
ksystemstats daemon): the sensor registry with path resolution
(`Daemon::findSensor`), per-client subscription bookkeeping
(`Client::subscribeSensors` / `Client::unsubscribeSensors`), the per-tick
delta accumulation driven by the `valueChanged` / `sensorInfoChanged` /
`destroyed` signal connections, and the flush (`Client::sendFrame`,
`Daemon::sendFrame`).

Qt containers are embedded as association lists with QHash semantics
(`hashInsert` replaces the value of an existing key in place, `hashRemove`
deletes every entry with the key); Qt signal connections are embedded as an
explicit list of live `Connection` records, and a signal emission applies the
connected lambda once per live connection for that sensor, in connection
order — exactly what Qt's synchronous direct-connection dispatch does on the
daemon's single thread.  `QVariant` values are `Option Int` with `none` for
an invalid (unset) variant.
-/

namespace KSysStats

/-- A QVariant sensor value: `none` is an invalid (default-constructed)
variant, `some n` a valid value.  `QVariant::isValid` is `Option.isSome`. -/
abbrev Variant := Option Int

/-- `KSysGuard::SensorInfo`: the metadata payload of a sensor (display name
and unit are enough to track identity of metadata snapshots). -/
structure SensorInfo where
  name : String
  unit : Nat
  deriving DecidableEq, Repr

/-- `KSysGuard::SensorData`: one (path, value) pair of a value delta. -/
structure SensorData where
  sensorProperty : String
  payload : Variant
  deriving DecidableEq, Repr

/-- `KSysGuard::SensorProperty` (libksysguard), as the registry sees it: a
leaf metric with a local id, its full path, its current value and its current
metadata. -/
structure SensorProperty where
  id : String
  path : String
  value : Variant
  info : SensorInfo
  deriving DecidableEq, Repr

/-- `KSysGuard::SensorObject`: a named group of sensors, addressable by an
object path segment. -/
structure SensorObject where
  id : String
  name : String
  path : String
  sensors : List SensorProperty
  deriving DecidableEq, Repr

/-- `KSysGuard::SensorContainer`: a top-level namespace holding objects. -/
structure SensorContainer where
  id : String
  name : String
  objects : List SensorObject
  deriving DecidableEq, Repr

/-! ## QHash / QMap as association lists -/

/-- `QHash::insert` / `QMap::operator[]=`: replace the value of the first
entry with this key in place, or append a fresh entry. -/
def hashInsert {β : Type _} : List (String × β) → String → β → List (String × β)
  | [], k, v => [(k, v)]
  | (k', v') :: rest, k, v =>
      if k' = k then (k, v) :: rest else (k', v') :: hashInsert rest k v

/-- `QHash::value` / lookup: the value of the first entry with this key. -/
def hashLookup {β : Type _} (m : List (String × β)) (k : String) : Option β :=
  (m.find? (fun e => e.fst = k)).map Prod.snd

/-- `QHash::remove`: delete every entry with this key. -/
def hashRemove {β : Type _} (m : List (String × β)) (k : String) : List (String × β) :=
  m.filter (fun e => ¬ e.fst = k)

/-! ## QString index arithmetic used by `Daemon::findSensor` -/

/-- `QString::indexOf(ch)`: index of the first occurrence, `-1` if absent. -/
def qIndexOf (s : List Char) (c : Char) : Int :=
  match s.findIdx? (· = c) with
  | some i => (i : Int)
  | none => -1

/-- `QString::lastIndexOf(ch)`: index of the last occurrence, `-1` if absent. -/
def qLastIndexOf (s : List Char) (c : Char) : Int :=
  match s.reverse.findIdx? (· = c) with
  | some i => (s.length : Int) - 1 - (i : Int)
  | none => -1

/-- `QString::left(n)`: the `n` leftmost characters; the whole string when
`n` is negative or at least the length. -/
def qLeft (s : List Char) (n : Int) : List Char :=
  if n < 0 then s else s.take n.toNat

/-- `QString::mid(pos, n)`: `n` characters starting at `pos`; empty when
`pos` is out of range, everything from `pos` when `n` is negative. -/
def qMid (s : List Char) (pos : Int) (n : Int) : List Char :=
  if pos < 0 ∨ (s.length : Int) < pos then []
  else if n < 0 then s.drop pos.toNat
  else (s.drop pos.toNat).take n.toNat

/-! ## Registry lookups -/

/-- `SensorObject::sensor(id)`: the sensor with this local id, else null. -/
def SensorObject.sensor (o : SensorObject) (id : String) : Option SensorProperty :=
  o.sensors.find? (fun s => s.id = id)

/-- `SensorContainer::object(id)`: the object with this id, else null. -/
def SensorContainer.object (c : SensorContainer) (id : String) : Option SensorObject :=
  c.objects.find? (fun o => o.id = id)

/-- The container segment of a path, as `Daemon::findSensor` parses it:
everything left of the first `/`. -/
def containerSegment (path : String) : String :=
  String.mk (qLeft path.toList (qIndexOf path.toList '/'))

/-- The object segment of a path, as `Daemon::findSensor` parses it:
everything strictly between the first and the last `/`. -/
def objectSegment (path : String) : String :=
  let s := path.toList
  String.mk (qMid s (qIndexOf s '/' + 1) (qLastIndexOf s '/' - (qIndexOf s '/' + 1)))

/-- The property segment of a path, as `Daemon::findSensor` parses it:
everything right of the last `/`. -/
def propertySegment (path : String) : String :=
  String.mk (qMid path.toList (qLastIndexOf path.toList '/' + 1) (-1))

/-- `Daemon::findSensor`: split the path into container/object/property
segments by first and last `/`, then look each up in turn; any missing stage
yields null (`none`), never an error. -/
def findSensor (containers : List (String × SensorContainer)) (path : String) :
    Option SensorProperty :=
  match hashLookup containers (containerSegment path) with
  | none => none
  | some c =>
    match c.object (objectSegment path) with
    | none => none
    | some o => o.sensor (propertySegment path)

/-! ## Client: subscription bookkeeping and delta accumulation

`Client` (client.cpp) holds `m_subscribedSensors : QHash<QString,
SensorProperty*>`, `m_connections : QHash<SensorProperty*, Connections>`,
`m_pendingUpdates : SensorDataList`, `m_pendingMetaDataChanges :
SensorInfoMap`.  Sensor identity is its (globally unique) path.  Live Qt
connections are modelled explicitly: `connect` appends a fresh `Connection`
record with a unique id, `disconnect` removes the record, and a signal
emission runs the connected lambda once per live record for that sensor. -/

/-- The kind of signal a connection listens to. -/
inductive ConnKind
  | valueChanged
  | infoChanged
  | destroyed
  deriving DecidableEq, Repr

/-- One live Qt connection from a sensor's signal to a client lambda. -/
structure Connection where
  connId : Nat
  sensorPath : String
  kind : ConnKind
  deriving DecidableEq, Repr

/-- The `Connections` struct of client.cpp: the connection ids stored for
one sensor in `m_connections`. -/
structure Connections where
  valueChanged : Nat
  infoChanged : Nat
  destroyed : Nat
  deriving DecidableEq, Repr

/-- The state of one `Client`.  `active` is the list of live Qt connections
in connection order; `nextConnId` generates fresh connection ids. -/
structure ClientState where
  subscribedSensors : List (String × String)
  connections : List (String × Connections)
  active : List Connection
  nextConnId : Nat
  pendingUpdates : List SensorData
  pendingMetaDataChanges : List (String × SensorInfo)
  deriving DecidableEq, Repr

/-- A freshly constructed `Client`: empty maps and accumulators. -/
def ClientState.init : ClientState :=
  ⟨[], [], [], 0, [], []⟩

/-- Modelled from the spec: `SensorProperty::subscribe` and `::unsubscribe`
(libksysguard, not part of this repository) are reference-counted — each
`subscribe()` call increments the property's subscriber count, each
`unsubscribe()` decrements it.  The counts are kept in a map keyed by
sensor path. -/
def bumpRef (refs : List (String × Nat)) (path : String) : List (String × Nat) :=
  hashInsert refs path ((hashLookup refs path).getD 0 + 1)

/-- Modelled from the spec: the decrement half of the reference counting,
see `bumpRef`. -/
def dropRef (refs : List (String × Nat)) (path : String) : List (String × Nat) :=
  hashInsert refs path ((hashLookup refs path).getD 0 - 1)

/-- The body of the loop in `Client::subscribeSensors` for one path: resolve
it through `Daemon::findSensor`; if null, do nothing; otherwise connect the
three lambdas (valueChanged, sensorInfoChanged, destroyed), store the fresh
`Connections` in `m_connections` (replacing any previous entry without
disconnecting it), call `sensor->subscribe()` and record the path in
`m_subscribedSensors`. -/
def subscribeOne (containers : List (String × SensorContainer))
    (st : ClientState × List (String × Nat)) (sensorPath : String) :
    ClientState × List (String × Nat) :=
  match findSensor containers sensorPath with
  | none => st
  | some sensor =>
    let c := st.1
    let conns : Connections := ⟨c.nextConnId, c.nextConnId + 1, c.nextConnId + 2⟩
    ({ c with
        active := c.active ++
          [⟨conns.valueChanged, sensor.path, ConnKind.valueChanged⟩,
           ⟨conns.infoChanged, sensor.path, ConnKind.infoChanged⟩,
           ⟨conns.destroyed, sensor.path, ConnKind.destroyed⟩],
        connections := hashInsert c.connections sensor.path conns,
        nextConnId := c.nextConnId + 3,
        subscribedSensors := hashInsert c.subscribedSensors sensorPath sensor.path },
     bumpRef st.2 sensor.path)

/-- `Client::subscribeSensors(sensorPaths)`: fold `subscribeOne` over the
requested paths. -/
def subscribeSensors (containers : List (String × SensorContainer))
    (st : ClientState × List (String × Nat)) (sensorPaths : List String) :
    ClientState × List (String × Nat) :=
  sensorPaths.foldl (subscribeOne containers) st

/-- The body of the loop in `Client::unsubscribeSensors` for one path:
`m_subscribedSensors.take(path)` — if no sensor is stored the loop body is
skipped; otherwise take the `Connections` record for that sensor out of
`m_connections`, disconnect exactly those three connections, and call
`sensor->unsubscribe()`.  Nothing touches the pending accumulators. -/
def unsubscribeOne (st : ClientState × List (String × Nat)) (sensorPath : String) :
    ClientState × List (String × Nat) :=
  let c := st.1
  match hashLookup c.subscribedSensors sensorPath with
  | none => st
  | some sensor =>
    let c := { c with subscribedSensors := hashRemove c.subscribedSensors sensorPath }
    match hashLookup c.connections sensor with
    | none =>
        ({ c with connections := hashRemove c.connections sensor }, dropRef st.2 sensor)
    | some conns =>
        ({ c with
            connections := hashRemove c.connections sensor,
            active := c.active.filter (fun cn =>
              ¬ (cn.connId = conns.valueChanged ∨ cn.connId = conns.infoChanged ∨
                 cn.connId = conns.destroyed)) },
         dropRef st.2 sensor)

/-- `Client::unsubscribeSensors(sensorPaths)`: fold `unsubscribeOne` over
the requested paths. -/
def unsubscribeSensors (st : ClientState × List (String × Nat))
    (sensorPaths : List String) : ClientState × List (String × Nat) :=
  sensorPaths.foldl unsubscribeOne st

/-- The live `valueChanged` connections of a client for one sensor. -/
def countValueConns (c : ClientState) (sensorPath : String) : Nat :=
  (c.active.filter (fun cn =>
    cn.kind = ConnKind.valueChanged ∧ cn.sensorPath = sensorPath)).length

/-- The live `sensorInfoChanged` connections of a client for one sensor. -/
def countInfoConns (c : ClientState) (sensorPath : String) : Nat :=
  (c.active.filter (fun cn =>
    cn.kind = ConnKind.infoChanged ∧ cn.sensorPath = sensorPath)).length

/-- Emission of `SensorProperty::valueChanged` for the sensor at
`sensorPath` whose current value is `value`: each live valueChanged
connection of this client for that sensor runs the lambda of
`Client::subscribeSensors` once — return early when the value is invalid,
otherwise append `SensorData(sensor->path(), value)` to
`m_pendingUpdates`. -/
def applyValueChanged (c : ClientState) (sensorPath : String) (value : Variant) :
    ClientState :=
  if value.isSome then
    { c with pendingUpdates :=
        c.pendingUpdates ++
          List.replicate (countValueConns c sensorPath) ⟨sensorPath, value⟩ }
  else c

/-- The body of the `sensorInfoChanged` lambda of `Client::subscribeSensors`:
`m_pendingMetaDataChanges[sensor->path()] = sensor->info()`. -/
def metaStep (sensorPath : String) (info : SensorInfo) (acc : ClientState) : ClientState :=
  { acc with pendingMetaDataChanges :=
      hashInsert acc.pendingMetaDataChanges sensorPath info }

/-- Emission of `SensorProperty::sensorInfoChanged` for the sensor at
`sensorPath` whose current metadata is `info`: each live infoChanged
connection runs `metaStep` once. -/
def applyInfoChanged (c : ClientState) (sensorPath : String) (info : SensorInfo) :
    ClientState :=
  (List.replicate (countInfoConns c sensorPath) ()).foldl
    (fun acc _ => metaStep sensorPath info acc) c

/-- The handler of `Daemon::sensorRemoved` connected in the `Client`
constructor: `m_subscribedSensors.remove(sensor)`. -/
def applySensorRemoved (c : ClientState) (sensorPath : String) : ClientState :=
  { c with subscribedSensors := hashRemove c.subscribedSensors sensorPath }

/-- A D-Bus message emitted to a client's service. -/
inductive Msg
  | sensorMetaDataChanged (sensors : List (String × SensorInfo))
  | newSensorData (entries : List SensorData)
  deriving DecidableEq, Repr

/-- `Client::sendValues`: no message at all when the delta is empty. -/
def sendValues (entries : List SensorData) : List Msg :=
  if entries.isEmpty then [] else [Msg.newSensorData entries]

/-- `Client::sendMetaDataChanged`: no message at all when the delta is
empty. -/
def sendMetaDataChanged (sensors : List (String × SensorInfo)) : List Msg :=
  if sensors.isEmpty then [] else [Msg.sensorMetaDataChanged sensors]

/-- `Client::sendFrame`: emit the metadata delta then the value delta (each
suppressed when empty), then clear both accumulators. -/
def ClientState.sendFrame (c : ClientState) : ClientState × List Msg :=
  ({ c with pendingUpdates := [], pendingMetaDataChanges := [] },
   sendMetaDataChanged c.pendingMetaDataChanges ++ sendValues c.pendingUpdates)

/-! ## Daemon: provider registry and the tick -/

/-- A `KSysGuard::SensorPlugin` as the daemon sees it: a declared provider
name, the containers it owns, and the outcome of its per-tick `update()`.
The outcome flag is modelled from the spec: `SensorPlugin::update` is
external collaborator code (libksysguard plugin interface, not part of this
repository); whether a given tick's refresh succeeds or fails internally is
abstracted as `updateOk`, which `Daemon::sendFrame` never inspects. -/
structure Provider where
  providerName : String
  containers : List SensorContainer
  updateOk : Bool
  deriving DecidableEq, Repr

/-- The state of the `Daemon`: registered providers in registration order,
the container index `m_containers`, and the connected clients. -/
structure DaemonState where
  providers : List Provider
  containers : List (String × SensorContainer)
  clients : List (String × ClientState)
  deriving DecidableEq, Repr

/-- `Daemon::registerProvider`: reject (warn and return, touching nothing)
when a provider with the same declared name is already registered;
otherwise append the provider and index each of its containers by id. -/
def registerProvider (d : DaemonState) (p : Provider) : DaemonState :=
  if d.providers.any (fun p2 => p2.providerName = p.providerName) then d
  else
    { d with
        providers := d.providers ++ [p],
        containers := p.containers.foldl (fun m c => hashInsert m c.id c) d.containers }

/-- The inner sensor loop of `Daemon::allSensors`:
`infoMap[sensor->path()] = sensor->info()` for each sensor of an object. -/
def insertSensorInfos (m : List (String × SensorInfo)) (sensors : List SensorProperty) :
    List (String × SensorInfo) :=
  sensors.foldl (fun m s => hashInsert m s.path s.info) m

/-- The object loop of `Daemon::allSensors`: insert the object's own info
under its path, then every sensor's info. -/
def insertObjectInfos (m : List (String × SensorInfo)) (objects : List SensorObject) :
    List (String × SensorInfo) :=
  objects.foldl (fun m o => insertSensorInfos (hashInsert m o.path ⟨o.name, 0⟩) o.sensors) m

/-- `Daemon::allSensors`: walk every container, inserting the container's
info under its id, each object's info under its path and each sensor's info
under its path. -/
def allSensors (d : DaemonState) : List (String × SensorInfo) :=
  d.containers.foldl
    (fun m kc => insertObjectInfos (hashInsert m kc.2.id ⟨kc.2.name, 0⟩) kc.2.objects) []

/-- The body of the loop in `Daemon::sensorData` for one requested id:
resolve it; when found and its current value is valid, append
`SensorData(sensorId, value)`; otherwise skip the id. -/
def sensorDataStep (d : DaemonState) (acc : List SensorData) (sensorId : String) :
    List SensorData :=
  match findSensor d.containers sensorId with
  | none => acc
  | some sensorProperty =>
      if sensorProperty.value.isSome then acc ++ [⟨sensorId, sensorProperty.value⟩]
      else acc

/-- `Daemon::sensorData(sensorIds)`: fold `sensorDataStep` over the
requested ids. -/
def sensorData (d : DaemonState) (sensorIds : List String) : List SensorData :=
  sensorIds.foldl (sensorDataStep d) []

/-- `Daemon::sendFrame`, the tick: call `provider->update()` on every
registered provider in registration order (the loop never inspects any
outcome), then call `client->sendFrame()` on every client.  Returns the new
state, the refresh trace (one entry per provider, with its outcome) and the
flush trace (one entry per client, with the messages it emitted). -/
def DaemonState.sendFrame (d : DaemonState) :
    DaemonState × List (String × Bool) × List (String × List Msg) :=
  let refreshTrace := d.providers.map (fun p => (p.providerName, p.updateOk))
  let flushed := d.clients.map (fun kc => (kc.1, kc.2.sendFrame))
  ({ d with clients := flushed.map (fun kc => (kc.1, kc.2.1)) },
   refreshTrace,
   flushed.map (fun kc => (kc.1, kc.2.2)))

/-- The `objectRemoved` handling wired up in `Daemon::registerProvider`:
when an object disappears from a container, the container drops it and the
daemon emits `sensorRemoved(sensor->path())` for each of its sensors; every
client's `sensorRemoved` handler removes that path from its subscribed set
(`applySensorRemoved`).  A missing container or object removes nothing. -/
def DaemonState.removeObject (d : DaemonState) (containerId objectId : String) :
    DaemonState :=
  match hashLookup d.containers containerId with
  | none => d
  | some c =>
    match c.object objectId with
    | none => d
    | some obj =>
      { d with
          containers := hashInsert d.containers containerId
            { c with objects := c.objects.filter (fun o => ¬ o.id = objectId) },
          clients := d.clients.map (fun kc =>
            (kc.1, obj.sensors.foldl (fun cl s => applySensorRemoved cl s.path) kc.2)) }

/-! ## Concrete fixtures used by witnesses and counterexamples -/

/-- The `usage` sensor of `cpuRegistry` (valid current value). -/
def usageSensor : SensorProperty :=
  ⟨"usage", "cpu/cpu0/usage", some 10, ⟨"Usage", 1⟩⟩

/-- The `freq` sensor of `cpuRegistry` (invalid current value). -/
def freqSensor : SensorProperty :=
  ⟨"freq", "cpu/cpu0/freq", none, ⟨"Frequency", 2⟩⟩

/-- The `cpu0` object of `cpuRegistry`. -/
def cpu0Object : SensorObject :=
  ⟨"cpu0", "CPU 0", "cpu/cpu0", [usageSensor, freqSensor]⟩

/-- The `cpu` container of `cpuRegistry`. -/
def cpuContainer : SensorContainer :=
  ⟨"cpu", "CPU", [cpu0Object]⟩

/-- A small concrete registry: one container `cpu` with one object `cpu0`
holding a sensor `usage` (valid value) and a sensor `freq` (invalid value). -/
def cpuRegistry : List (String × SensorContainer) :=
  [("cpu", cpuContainer)]

/-! ## Theorems -/

/-- C5: registering a provider whose declared name equals that of an
already-registered provider is rejected: `Daemon::registerProvider` returns
without effect, leaving the provider list and the container index exactly as
they were. -/
theorem registerProvider_duplicate_rejected (d : DaemonState) (p : Provider)
    (h : ∃ p2 ∈ d.providers, p2.providerName = p.providerName) :
    registerProvider d p = d := by
  unfold registerProvider
  rw [if_pos]
  simpa using h

/-- Witness for C5: a daemon already holding a provider named `cpu` is
unchanged by registering another provider named `cpu`. -/
theorem registerProvider_duplicate_rejected_witness :
    registerProvider ⟨[⟨"cpu", [], true⟩], [], []⟩ ⟨"cpu", [], false⟩ =
      ⟨[⟨"cpu", [], true⟩], [], []⟩ :=
  registerProvider_duplicate_rejected ⟨[⟨"cpu", [], true⟩], [], []⟩ ⟨"cpu", [], false⟩
    ⟨⟨"cpu", [], true⟩, by simp, rfl⟩

/-- C6: when a client's pending value delta and pending metadata delta are
both empty, `Client::sendFrame` emits no message at all. -/
theorem sendFrame_empty_sends_nothing (c : ClientState)
    (h1 : c.pendingUpdates = []) (h2 : c.pendingMetaDataChanges = []) :
    (c.sendFrame).2 = [] := by
  simp [ClientState.sendFrame, sendValues, sendMetaDataChanged, h1, h2]

/-- Witness for C6: a fresh client flushes to no messages. -/
theorem sendFrame_empty_sends_nothing_witness :
    (ClientState.init.sendFrame).2 = [] :=
  sendFrame_empty_sends_nothing ClientState.init rfl rfl

/-- C3: a failing provider refresh is isolated within the tick — even when
some registered provider's `update()` fails, `Daemon::sendFrame` still
invokes the refresh of every registered provider, in registration order, and
still runs the flush for every client. -/
theorem tick_isolates_provider_failure (d : DaemonState) (p : Provider)
    (hp : p ∈ d.providers) (hfail : p.updateOk = false) :
    (d.sendFrame).2.1 = d.providers.map (fun q => (q.providerName, q.updateOk)) ∧
    (d.sendFrame).2.2 = d.clients.map (fun kc => (kc.1, (kc.2.sendFrame).2)) := by
  refine ⟨rfl, ?_⟩
  simp [DaemonState.sendFrame, List.map_map, Function.comp]

/-- Witness for C3: with a failing provider between two healthy ones, all
three are refreshed and the sole client is still flushed. -/
theorem tick_isolates_provider_failure_witness :
    let d : DaemonState :=
      ⟨[⟨"cpu", [], true⟩, ⟨"bad", [], false⟩, ⟨"gpu", [], true⟩], [],
       [("client", ClientState.init)]⟩
    (d.sendFrame).2.1 = [("cpu", true), ("bad", false), ("gpu", true)] ∧
    (d.sendFrame).2.2 = [("client", [])] := by
  refine ⟨(tick_isolates_provider_failure _ ⟨"bad", [], false⟩ (by simp) rfl).1.trans ?_,
          (tick_isolates_provider_failure _ ⟨"bad", [], false⟩ (by simp) rfl).2.trans ?_⟩ <;>
    rfl

/-- Any entry produced by one `sensorDataStep` either was already in the
accumulator or resolves to a sensor with a valid value. -/
theorem mem_sensorDataStep (d : DaemonState) (acc : List SensorData)
    (sensorId : String) (e : SensorData) (he : e ∈ sensorDataStep d acc sensorId) :
    e ∈ acc ∨ ∃ sp, findSensor d.containers e.sensorProperty = some sp ∧
      sp.value.isSome = true ∧ e.payload = sp.value := by
  rcases hfind : findSensor d.containers sensorId with _ | sp <;>
    simp only [sensorDataStep, hfind] at he
  · exact Or.inl he
  · by_cases hv : sp.value.isSome = true
    · rw [if_pos hv] at he
      rcases List.mem_append.mp he with h | h
      · exact Or.inl h
      · rcases List.mem_singleton.mp h with rfl
        exact Or.inr ⟨sp, hfind, hv, rfl⟩
    · rw [if_neg hv] at he
      exact Or.inl he

/-- Entries of the `Daemon::sensorData` fold come from the initial
accumulator or resolve to sensors with valid values. -/
theorem mem_sensorData_foldl (d : DaemonState) (ids : List String) :
    ∀ (acc : List SensorData) (e : SensorData), e ∈ ids.foldl (sensorDataStep d) acc →
      e ∈ acc ∨ ∃ sp, findSensor d.containers e.sensorProperty = some sp ∧
        sp.value.isSome = true ∧ e.payload = sp.value := by
  induction ids with
  | nil => exact fun acc e he => Or.inl he
  | cons id rest ih =>
      intro acc e he
      rcases ih (sensorDataStep d acc id) e he with h | h
      · exact mem_sensorDataStep d acc id e h
      · exact Or.inr h

/-- C10: an invalid (unset) `QVariant` is never exposed to a consumer —
every entry of `Daemon::sensorData` resolves to a sensor whose current value
is valid and carries exactly that value (so invalid or unresolvable
requested paths are omitted), and the `valueChanged` lambda of
`Client::subscribeSensors` adds nothing to the pending delta when the
current value is invalid. -/
theorem invalid_value_never_exposed (d : DaemonState) (ids : List String)
    (e : SensorData) (c : ClientState) (sensorPath : String)
    (he : e ∈ sensorData d ids) :
    (∃ sp, findSensor d.containers e.sensorProperty = some sp ∧
      sp.value.isSome = true ∧ e.payload = sp.value) ∧
    applyValueChanged c sensorPath none = c := by
  refine ⟨?_, by simp [applyValueChanged]⟩
  rcases mem_sensorData_foldl d ids [] e he with h | h
  · exact absurd h (List.not_mem_nil e)
  · exact h

/-- Witness for C10: requesting the valid `usage`, the invalid `freq` and an
unknown path yields exactly the `usage` entry, which resolves to a valid
value; an invalid-value event on a fresh client changes nothing. -/
theorem invalid_value_never_exposed_witness :
    (∃ sp, findSensor cpuRegistry (SensorData.mk "cpu/cpu0/usage" (some 10)).sensorProperty
        = some sp ∧ sp.value.isSome = true ∧
        (SensorData.mk "cpu/cpu0/usage" (some 10)).payload = sp.value) ∧
    applyValueChanged ClientState.init "cpu/cpu0/usage" none = ClientState.init :=
  invalid_value_never_exposed ⟨[], cpuRegistry, []⟩
    ["cpu/cpu0/usage", "cpu/cpu0/freq", "nope/x/y"]
    ⟨"cpu/cpu0/usage", some 10⟩ ClientState.init "cpu/cpu0/usage" (by decide)

/-- `Client::subscribeSensors` skips a path that `Daemon::findSensor` does
not resolve. -/
theorem subscribeOne_not_found (containers : List (String × SensorContainer))
    (st : ClientState × List (String × Nat)) (path : String)
    (h : findSensor containers path = none) :
    subscribeOne containers st path = st := by
  simp [subscribeOne, h]

/-- C4: a path whose container, object, or property segment is absent from
the registry resolves to null (`Daemon::findSensor` returns `none`, never an
error), and a subscribe request for it leaves the client's subscription
state — and the refcounts — completely unchanged. -/
theorem unknown_path_is_silent_noop (containers : List (String × SensorContainer))
    (path : String) (c : ClientState) (refs : List (String × Nat))
    (h : hashLookup containers (containerSegment path) = none ∨
         (∃ cont, hashLookup containers (containerSegment path) = some cont ∧
            cont.object (objectSegment path) = none) ∨
         (∃ cont obj, hashLookup containers (containerSegment path) = some cont ∧
            cont.object (objectSegment path) = some obj ∧
            obj.sensor (propertySegment path) = none)) :
    findSensor containers path = none ∧
    subscribeSensors containers (c, refs) [path] = (c, refs) := by
  have hf : findSensor containers path = none := by
    unfold findSensor
    rcases h with h | ⟨cont, h1, h2⟩ | ⟨cont, obj, h1, h2, h3⟩
    · rw [h]
    · simp only [h1, h2]
    · simp only [h1, h2, h3]
  exact ⟨hf, by simp [subscribeSensors, subscribeOne_not_found containers (c, refs) path hf]⟩

/-- Witness for C4: the path `net/eth0/rx` has no container in
`cpuRegistry`; it resolves to null and subscribing to it changes nothing. -/
theorem unknown_path_is_silent_noop_witness :
    findSensor cpuRegistry "net/eth0/rx" = none ∧
    subscribeSensors cpuRegistry (ClientState.init, []) ["net/eth0/rx"] =
      (ClientState.init, []) :=
  unknown_path_is_silent_noop cpuRegistry "net/eth0/rx" ClientState.init []
    (Or.inl (by decide))

/-- Counterexample to C1: subscribe to `cpu/cpu0/usage`, let its value
change to 42, unsubscribe before the flush — the flush still emits a value
delta containing the entry for the unsubscribed path:
`Client::unsubscribeSensors` only detaches the listeners, it never scrubs
`m_pendingUpdates`, and `Client::sendFrame` sends the whole list. -/
theorem unsubscribed_pending_delta_still_sent :
    ((unsubscribeSensors
        (applyValueChanged
          (subscribeSensors cpuRegistry (ClientState.init, []) ["cpu/cpu0/usage"]).1
          "cpu/cpu0/usage" (some 42),
         (subscribeSensors cpuRegistry (ClientState.init, []) ["cpu/cpu0/usage"]).2)
        ["cpu/cpu0/usage"]).1.sendFrame).2 =
      [Msg.newSensorData [⟨"cpu/cpu0/usage", some 42⟩]] := by decide

/-- C1 as amended: when a client subscribed to path `a` sees `a`'s value
change and then unsubscribes `a` before the next flush, the flush still
delivers the delta entry queued before the unsubscribe; the unsubscribe only
detaches the listeners, so a further value change of `a` after it adds
nothing to the pending delta. -/
theorem unsubscribe_keeps_queued_delta (containers : List (String × SensorContainer))
    (a : String) (sensor : SensorProperty) (v : Int)
    (hA : findSensor containers a = some sensor) (hpath : sensor.path = a) :
    ((unsubscribeSensors
        (applyValueChanged (subscribeSensors containers (ClientState.init, []) [a]).1 a (some v),
         (subscribeSensors containers (ClientState.init, []) [a]).2) [a]).1.sendFrame).2 =
      [Msg.newSensorData [⟨a, some v⟩]] ∧
    applyValueChanged
      ((unsubscribeSensors
        (applyValueChanged (subscribeSensors containers (ClientState.init, []) [a]).1 a (some v),
         (subscribeSensors containers (ClientState.init, []) [a]).2) [a]).1) a (some v) =
      ((unsubscribeSensors
        (applyValueChanged (subscribeSensors containers (ClientState.init, []) [a]).1 a (some v),
         (subscribeSensors containers (ClientState.init, []) [a]).2) [a]).1) := by
  simp [subscribeSensors, subscribeOne, hA, hpath, unsubscribeSensors, unsubscribeOne,
    applyValueChanged, countValueConns, hashInsert, hashLookup, hashRemove, bumpRef, dropRef,
    ClientState.init, ClientState.sendFrame, sendValues, sendMetaDataChanged, List.filter,
    List.find?, List.replicate]

/-- Witness for the amended C1, at the concrete `usage` sensor. -/
theorem unsubscribe_keeps_queued_delta_witness :
    ((unsubscribeSensors
        (applyValueChanged
          (subscribeSensors cpuRegistry (ClientState.init, []) ["cpu/cpu0/usage"]).1
          "cpu/cpu0/usage" (some 99),
         (subscribeSensors cpuRegistry (ClientState.init, []) ["cpu/cpu0/usage"]).2)
        ["cpu/cpu0/usage"]).1.sendFrame).2 =
      [Msg.newSensorData [⟨"cpu/cpu0/usage", some 99⟩]] ∧
    applyValueChanged
      ((unsubscribeSensors
        (applyValueChanged
          (subscribeSensors cpuRegistry (ClientState.init, []) ["cpu/cpu0/usage"]).1
          "cpu/cpu0/usage" (some 99),
         (subscribeSensors cpuRegistry (ClientState.init, []) ["cpu/cpu0/usage"]).2)
        ["cpu/cpu0/usage"]).1) "cpu/cpu0/usage" (some 99) =
      ((unsubscribeSensors
        (applyValueChanged
          (subscribeSensors cpuRegistry (ClientState.init, []) ["cpu/cpu0/usage"]).1
          "cpu/cpu0/usage" (some 99),
         (subscribeSensors cpuRegistry (ClientState.init, []) ["cpu/cpu0/usage"]).2)
        ["cpu/cpu0/usage"]).1) :=
  unsubscribe_keeps_queued_delta cpuRegistry "cpu/cpu0/usage" usageSensor 99
    (by decide) rfl

/-- Counterexample to C2: subscribing twice to `cpu/cpu0/usage` is not a
no-op — the property's subscription refcount rises from 1 to 2 and a single
subsequent value change queues two pending updates, because
`Client::subscribeSensors` never checks `m_subscribedSensors` and attaches a
second set of listeners (overwriting the `m_connections` entry without
disconnecting the first set). -/
theorem double_subscribe_not_noop :
    (hashLookup (subscribeSensors cpuRegistry
        (subscribeSensors cpuRegistry (ClientState.init, []) ["cpu/cpu0/usage"])
        ["cpu/cpu0/usage"]).2 "cpu/cpu0/usage" = some 2 ∧
     hashLookup (subscribeSensors cpuRegistry (ClientState.init, []) ["cpu/cpu0/usage"]).2
        "cpu/cpu0/usage" = some 1) ∧
    (applyValueChanged (subscribeSensors cpuRegistry
        (subscribeSensors cpuRegistry (ClientState.init, []) ["cpu/cpu0/usage"])
        ["cpu/cpu0/usage"]).1 "cpu/cpu0/usage" (some 7)).pendingUpdates =
      [⟨"cpu/cpu0/usage", some 7⟩, ⟨"cpu/cpu0/usage", some 7⟩] := by decide

/-- C2 as amended: calling subscribe again on an already-subscribed path
leaves the subscribed-set mapping unchanged, but it attaches a second set of
listeners (the first set stays connected) and increments the property's
subscription refcount again, so a subsequent value change yields one pending
update per subscribe call — two after a double subscribe. -/
theorem double_subscribe_duplicates (containers : List (String × SensorContainer))
    (a : String) (sensor : SensorProperty) (v : Int)
    (hA : findSensor containers a = some sensor) (hpath : sensor.path = a) :
    (subscribeSensors containers
        (subscribeSensors containers (ClientState.init, []) [a]) [a]).1.subscribedSensors =
      (subscribeSensors containers (ClientState.init, []) [a]).1.subscribedSensors ∧
    hashLookup (subscribeSensors containers
        (subscribeSensors containers (ClientState.init, []) [a]) [a]).2 a = some 2 ∧
    countValueConns (subscribeSensors containers
        (subscribeSensors containers (ClientState.init, []) [a]) [a]).1 a = 2 ∧
    (applyValueChanged (subscribeSensors containers
        (subscribeSensors containers (ClientState.init, []) [a]) [a]).1 a (some v)).pendingUpdates =
      [⟨a, some v⟩, ⟨a, some v⟩] := by
  simp [subscribeSensors, subscribeOne, hA, hpath, applyValueChanged, countValueConns,
    hashInsert, hashLookup, bumpRef, ClientState.init, List.filter, List.find?, List.replicate]

/-- Witness for the amended C2, at the concrete `usage` sensor. -/
theorem double_subscribe_duplicates_witness :
    (subscribeSensors cpuRegistry
        (subscribeSensors cpuRegistry (ClientState.init, []) ["cpu/cpu0/usage"])
        ["cpu/cpu0/usage"]).1.subscribedSensors =
      (subscribeSensors cpuRegistry (ClientState.init, []) ["cpu/cpu0/usage"]).1.subscribedSensors ∧
    hashLookup (subscribeSensors cpuRegistry
        (subscribeSensors cpuRegistry (ClientState.init, []) ["cpu/cpu0/usage"])
        ["cpu/cpu0/usage"]).2 "cpu/cpu0/usage" = some 2 ∧
    countValueConns (subscribeSensors cpuRegistry
        (subscribeSensors cpuRegistry (ClientState.init, []) ["cpu/cpu0/usage"])
        ["cpu/cpu0/usage"]).1 "cpu/cpu0/usage" = 2 ∧
    (applyValueChanged (subscribeSensors cpuRegistry
        (subscribeSensors cpuRegistry (ClientState.init, []) ["cpu/cpu0/usage"])
        ["cpu/cpu0/usage"]).1 "cpu/cpu0/usage" (some 7)).pendingUpdates =
      [⟨"cpu/cpu0/usage", some 7⟩, ⟨"cpu/cpu0/usage", some 7⟩] :=
  double_subscribe_duplicates cpuRegistry "cpu/cpu0/usage" usageSensor 7 (by decide) rfl

/-- C7: with a client subscribed to two distinct paths, one value change on
each between two flushes produces exactly one value message, containing
exactly one update per path, in the order the changes occurred — the
`valueChanged` lambdas append to `m_pendingUpdates` in event order and
`Client::sendFrame` sends the list as one `newSensorData` frame. -/
theorem two_changes_one_ordered_delta (containers : List (String × SensorContainer))
    (a b : String) (sa sb : SensorProperty) (va vb : Int)
    (hA : findSensor containers a = some sa) (hap : sa.path = a)
    (hB : findSensor containers b = some sb) (hbp : sb.path = b)
    (hab : a ≠ b) :
    ((applyValueChanged
        (applyValueChanged (subscribeSensors containers (ClientState.init, []) [a, b]).1
          a (some va)) b (some vb)).sendFrame).2 =
      [Msg.newSensorData [⟨a, some va⟩, ⟨b, some vb⟩]] := by
  simp [subscribeSensors, subscribeOne, hA, hB, hap, hbp, hab, Ne.symm hab,
    applyValueChanged, countValueConns, hashInsert, hashLookup, bumpRef, ClientState.init,
    ClientState.sendFrame, sendValues, sendMetaDataChanged, List.filter, List.find?,
    List.replicate]

/-- Witness for C7: changing `usage` then `freq` yields the one two-entry
frame, in that order. -/
theorem two_changes_one_ordered_delta_witness :
    ((applyValueChanged
        (applyValueChanged
          (subscribeSensors cpuRegistry (ClientState.init, [])
            ["cpu/cpu0/usage", "cpu/cpu0/freq"]).1
          "cpu/cpu0/usage" (some 11)) "cpu/cpu0/freq" (some 22)).sendFrame).2 =
      [Msg.newSensorData [⟨"cpu/cpu0/usage", some 11⟩, ⟨"cpu/cpu0/freq", some 22⟩]] :=
  two_changes_one_ordered_delta cpuRegistry "cpu/cpu0/usage" "cpu/cpu0/freq" usageSensor
    freqSensor 11 22 (by decide) rfl (by decide) rfl (by decide)

/-- Re-inserting the same key/value pair into a QHash changes nothing. -/
theorem hashInsert_idem {β : Type _} (m : List (String × β)) (k : String) (v : β) :
    hashInsert (hashInsert m k v) k v = hashInsert m k v := by
  induction m with
  | nil => simp [hashInsert]
  | cons e rest ih =>
      obtain ⟨k', v'⟩ := e
      by_cases h : k' = k
      · simp [hashInsert, h]
      · simp [hashInsert, h, ih]

/-- Running the `sensorInfoChanged` lambda any number of times never touches
the connection list. -/
theorem metaStep_foldl_active (p : String) (i : SensorInfo) :
    ∀ (l : List Unit) (c : ClientState),
      (l.foldl (fun acc _ => metaStep p i acc) c).active = c.active := by
  intro l
  induction l with
  | nil => intro c; rfl
  | cons _ t ih => intro c; rw [List.foldl_cons]; rw [ih]; rfl

/-- Running the `sensorInfoChanged` lambda once or more leaves the pending
metadata map as a single upsert of that path. -/
theorem metaStep_foldl_meta (p : String) (i : SensorInfo) :
    ∀ (n : Nat) (c : ClientState), 1 ≤ n →
      ((List.replicate n ()).foldl (fun acc _ => metaStep p i acc) c).pendingMetaDataChanges =
      hashInsert c.pendingMetaDataChanges p i := by
  intro n
  induction n with
  | zero => omega
  | succ n ih =>
      intro c _
      rcases Nat.eq_zero_or_pos n with rfl | hn
      · rfl
      · rw [List.replicate_succ, List.foldl_cons, ih _ hn]
        exact hashInsert_idem _ _ _

/-- Emitting `sensorInfoChanged` never changes the live connections. -/
theorem applyInfoChanged_active (c : ClientState) (p : String) (i : SensorInfo) :
    (applyInfoChanged c p i).active = c.active :=
  metaStep_foldl_active p i _ c

/-- For a client with at least one live infoChanged connection for the path,
emitting `sensorInfoChanged` upserts the pending metadata map once. -/
theorem applyInfoChanged_meta (c : ClientState) (p : String) (i : SensorInfo)
    (h : 1 ≤ countInfoConns c p) :
    (applyInfoChanged c p i).pendingMetaDataChanges =
      hashInsert c.pendingMetaDataChanges p i :=
  metaStep_foldl_meta p i _ c h

/-- Emitting `sensorInfoChanged` preserves every connection count. -/
theorem countInfoConns_applyInfoChanged (c : ClientState) (p q : String) (i : SensorInfo) :
    countInfoConns (applyInfoChanged c p i) q = countInfoConns c q := by
  unfold countInfoConns
  rw [applyInfoChanged_active]

/-- Keys of a QHash after an insert come from the map or are the inserted
key. -/
theorem mem_keys_hashInsert {β : Type _} (m : List (String × β)) (k x : String) (v : β)
    (h : x ∈ (hashInsert m k v).map Prod.fst) : x ∈ m.map Prod.fst ∨ x = k := by
  induction m with
  | nil => simp_all [hashInsert]
  | cons e rest ih =>
      obtain ⟨k', v'⟩ := e
      by_cases hk : k' = k
      · subst hk
        simp only [hashInsert, eq_self_iff_true, if_true, List.map_cons, List.mem_cons] at h ⊢
        tauto
      · simp only [hashInsert, if_neg hk, List.map_cons, List.mem_cons] at h ⊢
        rcases h with h | h
        · exact Or.inl (Or.inl h)
        · rcases ih h with h | h
          · exact Or.inl (Or.inr h)
          · exact Or.inr h

/-- Inserting preserves key uniqueness of a QHash. -/
theorem hashInsert_keys_nodup {β : Type _} (m : List (String × β)) (k : String) (v : β)
    (h : (m.map Prod.fst).Nodup) : ((hashInsert m k v).map Prod.fst).Nodup := by
  induction m with
  | nil => simp [hashInsert]
  | cons e rest ih =>
      obtain ⟨k', v'⟩ := e
      simp only [List.map_cons, List.nodup_cons] at h
      by_cases hk : k' = k
      · subst hk
        simpa [hashInsert, List.nodup_cons] using h
      · simp only [hashInsert, if_neg hk, List.map_cons, List.nodup_cons]
        refine ⟨fun hm => ?_, ih h.2⟩
        rcases mem_keys_hashInsert rest k k' v hm with hm | hm
        · exact h.1 hm
        · exact hk hm

/-- Entries of an absent key filter to nothing. -/
theorem filter_key_eq_nil {β : Type _} (m : List (String × β)) (p : String)
    (h : p ∉ m.map Prod.fst) : m.filter (fun e => e.1 = p) = [] := by
  induction m with
  | nil => rfl
  | cons e rest ih =>
      simp only [List.map_cons, List.mem_cons, not_or] at h
      rw [List.filter_cons_of_neg, ih h.2]
      simpa using fun he => h.1 he.symm

/-- In a key-unique QHash, after upserting a key its entries are exactly the
one inserted pair. -/
theorem hashInsert_filter_key {β : Type _} (m : List (String × β)) (k : String) (v : β)
    (h : (m.map Prod.fst).Nodup) :
    (hashInsert m k v).filter (fun e => e.1 = k) = [(k, v)] := by
  induction m with
  | nil => simp [hashInsert]
  | cons e rest ih =>
      obtain ⟨k', v'⟩ := e
      simp only [List.map_cons, List.nodup_cons] at h
      by_cases hk : k' = k
      · subst hk
        rw [hashInsert, if_pos rfl, List.filter_cons_of_pos (by simp),
          filter_key_eq_nil rest k' h.1]
      · rw [hashInsert, if_neg hk, List.filter_cons_of_neg (by simpa using hk), ih h.2]

/-- Folding a sequence of `sensorInfoChanged` emissions for one path leaves
exactly one pending metadata entry for it, holding the last emitted info. -/
theorem infoChanged_fold_filter (p : String) :
    ∀ (infos : List SensorInfo) (i : SensorInfo) (c : ClientState),
      1 ≤ countInfoConns c p → ((c.pendingMetaDataChanges).map Prod.fst).Nodup →
      ((infos.foldl (fun acc j => applyInfoChanged acc p j)
          (applyInfoChanged c p i)).pendingMetaDataChanges.filter (fun e => e.1 = p)) =
        [(p, infos.getLastD i)] := by
  intro infos
  induction infos with
  | nil =>
      intro i c hconn hnodup
      simp only [List.foldl_nil, List.getLastD_nil]
      rw [applyInfoChanged_meta c p i hconn]
      exact hashInsert_filter_key _ _ _ hnodup
  | cons j rest ih =>
      intro i c hconn hnodup
      rw [List.foldl_cons]
      have h2 : 1 ≤ countInfoConns (applyInfoChanged c p i) p := by
        rw [countInfoConns_applyInfoChanged]; exact hconn
      have h3 : (((applyInfoChanged c p i).pendingMetaDataChanges).map Prod.fst).Nodup := by
        rw [applyInfoChanged_meta c p i hconn]
        exact hashInsert_keys_nodup _ _ _ hnodup
      rw [ih j (applyInfoChanged c p i) h2 h3, List.getLastD_cons]

/-- C8: any nonempty sequence of metadata-change events for one subscribed
path between two flushes is coalesced into exactly one entry of the flushed
metadata delta, carrying the metadata captured at the last change
(last-write-wins per path), and the flush does deliver that delta in a
`sensorMetaDataChanged` message. -/
theorem metadata_changes_coalesced (c : ClientState) (p : String) (i : SensorInfo)
    (infos : List SensorInfo) (hconn : 1 ≤ countInfoConns c p)
    (hnodup : ((c.pendingMetaDataChanges).map Prod.fst).Nodup) :
    (((i :: infos).foldl (fun acc j => applyInfoChanged acc p j) c).pendingMetaDataChanges.filter
        (fun e => e.1 = p)) = [(p, infos.getLastD i)] ∧
    Msg.sensorMetaDataChanged
        (((i :: infos).foldl (fun acc j => applyInfoChanged acc p j) c).pendingMetaDataChanges) ∈
      ((((i :: infos).foldl (fun acc j => applyInfoChanged acc p j) c)).sendFrame).2 := by
  have hf : (((i :: infos).foldl (fun acc j => applyInfoChanged acc p j)
      c).pendingMetaDataChanges.filter (fun e => e.1 = p)) = [(p, infos.getLastD i)] := by
    rw [List.foldl_cons]
    exact infoChanged_fold_filter p infos i c hconn hnodup
  refine ⟨hf, ?_⟩
  rcases hm : ((i :: infos).foldl (fun acc j => applyInfoChanged acc p j)
      c).pendingMetaDataChanges with _ | ⟨e, tl⟩
  · rw [hm] at hf; simp at hf
  · rw [ClientState.sendFrame]
    simp only [hm, sendMetaDataChanged, List.isEmpty_cons, ite_false, Bool.false_eq_true,
      List.mem_append, List.mem_cons]
    tauto

/-- Witness for C8: two metadata changes on the subscribed `usage` path
coalesce to one entry carrying the second info, and the flush carries it. -/
theorem metadata_changes_coalesced_witness :
    (((SensorInfo.mk "A" 1 :: [SensorInfo.mk "B" 2]).foldl
        (fun acc j => applyInfoChanged acc "cpu/cpu0/usage" j)
        (subscribeSensors cpuRegistry (ClientState.init, [])
          ["cpu/cpu0/usage"]).1).pendingMetaDataChanges.filter
        (fun e => e.1 = "cpu/cpu0/usage")) =
      [("cpu/cpu0/usage", [SensorInfo.mk "B" 2].getLastD (SensorInfo.mk "A" 1))] ∧
    Msg.sensorMetaDataChanged
        (((SensorInfo.mk "A" 1 :: [SensorInfo.mk "B" 2]).foldl
          (fun acc j => applyInfoChanged acc "cpu/cpu0/usage" j)
          (subscribeSensors cpuRegistry (ClientState.init, [])
            ["cpu/cpu0/usage"]).1).pendingMetaDataChanges) ∈
      ((((SensorInfo.mk "A" 1 :: [SensorInfo.mk "B" 2]).foldl
          (fun acc j => applyInfoChanged acc "cpu/cpu0/usage" j)
          (subscribeSensors cpuRegistry (ClientState.init, [])
            ["cpu/cpu0/usage"]).1)).sendFrame).2 :=
  metadata_changes_coalesced
    (subscribeSensors cpuRegistry (ClientState.init, []) ["cpu/cpu0/usage"]).1
    "cpu/cpu0/usage" ⟨"A", 1⟩ [⟨"B", 2⟩] (by decide) (by decide)

/-- Looking a key up in a QHash finds a stored entry. -/
theorem hashLookup_mem {β : Type _} (m : List (String × β)) (k : String) (v : β)
    (h : hashLookup m k = some v) : (k, v) ∈ m := by
  unfold hashLookup at h
  rcases Option.map_eq_some'.mp h with ⟨e, he, hev⟩
  have hmem := List.mem_of_find?_eq_some he
  have hkey : e.1 = k := by simpa using List.find?_some he
  have : e = (k, v) := by
    obtain ⟨e1, e2⟩ := e
    simp only at hkey hev
    rw [hkey, hev]
  exact this ▸ hmem

/-- Entries after a QHash insert carry the inserted key or come from the
map. -/
theorem mem_hashInsert_weak {β : Type _} (m : List (String × β)) (k : String) (v : β)
    (e : String × β) (he : e ∈ hashInsert m k v) : e.1 = k ∨ e ∈ m := by
  induction m with
  | nil => simp_all [hashInsert]
  | cons f rest ih =>
      obtain ⟨k', v'⟩ := f
      by_cases hk : k' = k
      · subst hk
        simp only [hashInsert, eq_self_iff_true, if_true, List.mem_cons] at he
        rcases he with rfl | he
        · exact Or.inl rfl
        · exact Or.inr (List.mem_cons_of_mem _ he)
      · simp only [hashInsert, if_neg hk, List.mem_cons] at he
        rcases he with rfl | he
        · exact Or.inr (List.mem_cons_self _ _)
        · rcases ih he with h | h
          · exact Or.inl h
          · exact Or.inr (List.mem_cons_of_mem _ h)

/-- In a key-unique QHash, entries after an insert are the inserted pair or
untouched entries of a different key. -/
theorem mem_hashInsert_strong {β : Type _} (m : List (String × β)) (k : String) (v : β)
    (e : String × β) (hnodup : (m.map Prod.fst).Nodup)
    (he : e ∈ hashInsert m k v) : e = (k, v) ∨ (e ∈ m ∧ ¬ e.1 = k) := by
  induction m with
  | nil => simp_all [hashInsert]
  | cons f rest ih =>
      obtain ⟨k', v'⟩ := f
      simp only [List.map_cons, List.nodup_cons] at hnodup
      by_cases hk : k' = k
      · subst hk
        simp only [hashInsert, eq_self_iff_true, if_true, List.mem_cons] at he
        rcases he with rfl | he
        · exact Or.inl rfl
        · refine Or.inr ⟨List.mem_cons_of_mem _ he, fun h1 => hnodup.1 ?_⟩
          exact h1 ▸ List.mem_map.mpr ⟨e, he, rfl⟩
      · simp only [hashInsert, if_neg hk, List.mem_cons] at he
        rcases he with rfl | he
        · exact Or.inr ⟨List.mem_cons_self _ _, hk⟩
        · rcases ih hnodup.2 he with h | ⟨h1, h2⟩
          · exact Or.inl h
          · exact Or.inr ⟨List.mem_cons_of_mem _ h1, h2⟩

/-- Keys produced by the sensor loop of `Daemon::allSensors` are sensor
paths or come from the accumulator. -/
theorem mem_insertSensorInfos (ss : List SensorProperty) :
    ∀ (m : List (String × SensorInfo)) (e : String × SensorInfo),
      e ∈ insertSensorInfos m ss →
      (∃ t ∈ ss, e.1 = t.path) ∨ e ∈ m := by
  induction ss with
  | nil => exact fun m e he => Or.inr he
  | cons s tl ih =>
      intro m e he
      rcases ih (hashInsert m s.path s.info) e he with ⟨t, ht, hp⟩ | he2
      · exact Or.inl ⟨t, List.mem_cons_of_mem _ ht, hp⟩
      · rcases mem_hashInsert_weak m s.path s.info e he2 with h | h
        · exact Or.inl ⟨s, List.mem_cons_self _ _, h⟩
        · exact Or.inr h

/-- Keys produced by the object loop of `Daemon::allSensors` are object
paths, sensor paths, or come from the accumulator. -/
theorem mem_insertObjectInfos (os : List SensorObject) :
    ∀ (m : List (String × SensorInfo)) (e : String × SensorInfo),
      e ∈ insertObjectInfos m os →
      (∃ o ∈ os, e.1 = o.path ∨ ∃ t ∈ o.sensors, e.1 = t.path) ∨ e ∈ m := by
  induction os with
  | nil => exact fun m e he => Or.inr he
  | cons o tl ih =>
      intro m e he
      rcases ih _ e he with ⟨o2, ho2, h⟩ | he2
      · exact Or.inl ⟨o2, List.mem_cons_of_mem _ ho2, h⟩
      · rcases mem_insertSensorInfos o.sensors _ e he2 with ⟨t, ht, hp⟩ | he3
        · exact Or.inl ⟨o, List.mem_cons_self _ _, Or.inr ⟨t, ht, hp⟩⟩
        · rcases mem_hashInsert_weak m o.path _ e he3 with h | h
          · exact Or.inl ⟨o, List.mem_cons_self _ _, Or.inl h⟩
          · exact Or.inr h

/-- Keys produced by the container loop of `Daemon::allSensors` are
container ids, object paths, sensor paths, or come from the accumulator. -/
theorem mem_allSensors_foldl (cs : List (String × SensorContainer)) :
    ∀ (m : List (String × SensorInfo)) (e : String × SensorInfo),
      e ∈ cs.foldl
        (fun m kc => insertObjectInfos (hashInsert m kc.2.id ⟨kc.2.name, 0⟩) kc.2.objects) m →
      (∃ kc ∈ cs, e.1 = kc.2.id ∨
        ∃ o ∈ kc.2.objects, e.1 = o.path ∨ ∃ t ∈ o.sensors, e.1 = t.path) ∨ e ∈ m := by
  induction cs with
  | nil => exact fun m e he => Or.inr he
  | cons kc tl ih =>
      intro m e he
      rcases ih _ e he with ⟨kc2, hkc2, h⟩ | he2
      · exact Or.inl ⟨kc2, List.mem_cons_of_mem _ hkc2, h⟩
      · rcases mem_insertObjectInfos kc.2.objects _ e he2 with ⟨o, ho, h⟩ | he3
        · exact Or.inl ⟨kc, List.mem_cons_self _ _, Or.inr ⟨o, ho, h⟩⟩
        · rcases mem_hashInsert_weak m kc.2.id _ e he3 with h | h
          · exact Or.inl ⟨kc, List.mem_cons_self _ _, Or.inl h⟩
          · exact Or.inr h

/-- Every key of `Daemon::allSensors` is a container id, an object path or a
sensor path of the current registry. -/
theorem mem_allSensors (d : DaemonState) (e : String × SensorInfo)
    (he : e ∈ allSensors d) :
    ∃ kc ∈ d.containers, e.1 = kc.2.id ∨
      ∃ o ∈ kc.2.objects, e.1 = o.path ∨ ∃ t ∈ o.sensors, e.1 = t.path := by
  rcases mem_allSensors_foldl d.containers [] e he with h | h
  · exact h
  · exact absurd h (List.not_mem_nil e)

/-- Removing a key from a QHash makes its lookup null. -/
theorem hashLookup_hashRemove_self {β : Type _} (m : List (String × β)) (k : String) :
    hashLookup (hashRemove m k) k = none := by
  unfold hashLookup hashRemove
  rw [Option.map_eq_none', List.find?_eq_none]
  intro e he
  have := (List.mem_filter.mp he).2
  simpa using this

/-- Removing any key from a QHash keeps an absent key absent. -/
theorem hashLookup_none_hashRemove {β : Type _} (m : List (String × β)) (k k' : String)
    (h : hashLookup m k = none) : hashLookup (hashRemove m k') k = none := by
  unfold hashLookup hashRemove at *
  rw [Option.map_eq_none', List.find?_eq_none]
  rw [Option.map_eq_none', List.find?_eq_none] at h
  exact fun e he => h e (List.mem_filter.mp he).1

/-- A run of `sensorRemoved` handlers keeps an already-absent path absent
from the subscribed set. -/
theorem removeFold_lookup_none (ss : List SensorProperty) (k : String) :
    ∀ (cl : ClientState), hashLookup cl.subscribedSensors k = none →
      hashLookup ((ss.foldl (fun cl t => applySensorRemoved cl t.path) cl).subscribedSensors) k
        = none := by
  induction ss with
  | nil => exact fun cl h => h
  | cons t tl ih =>
      intro cl h
      rw [List.foldl_cons]
      exact ih _ (hashLookup_none_hashRemove _ k t.path h)

/-- After the `sensorRemoved` handlers for a list of sensors containing `s`
have run, `s.path` is gone from the subscribed set. -/
theorem removeFold_lookup (ss : List SensorProperty) (s : SensorProperty) (hs : s ∈ ss) :
    ∀ (cl : ClientState),
      hashLookup ((ss.foldl (fun cl t => applySensorRemoved cl t.path) cl).subscribedSensors)
        s.path = none := by
  induction ss with
  | nil => cases hs
  | cons t tl ih =>
      intro cl
      rw [List.foldl_cons]
      rcases List.mem_cons.mp hs with rfl | hs2
      · exact removeFold_lookup_none tl s.path _ (hashLookup_hashRemove_self _ _)
      · exact ih hs2 _

/-- C9: destroying an object while clients are subscribed to one of its
sensors removes that sensor's path from the discovery map
(`Daemon::allSensors`) and from every client's subscribed set, with no
error: the container drops the object, the daemon emits
`sensorRemoved(path)` for each of its sensors, and each client's handler
removes the path.  Path uniqueness (the spec's global-uniqueness invariant)
is assumed through `huniq`/`hcid`/`hop`. -/
theorem object_destroyed_while_subscribed (d : DaemonState) (cid oid : String)
    (cont : SensorContainer) (obj : SensorObject) (s : SensorProperty)
    (hc : hashLookup d.containers cid = some cont)
    (ho : cont.object oid = some obj)
    (hs : s ∈ obj.sensors)
    (hkeys : (d.containers.map Prod.fst).Nodup)
    (huniq : ∀ kc ∈ d.containers, ∀ o ∈ kc.2.objects, ∀ t ∈ o.sensors,
        t.path = s.path → kc.1 = cid ∧ o.id = oid)
    (hcid : ∀ kc ∈ d.containers, ¬ kc.2.id = s.path)
    (hop : ∀ kc ∈ d.containers, ∀ o ∈ kc.2.objects, ¬ o.path = s.path) :
    (∀ e ∈ allSensors (d.removeObject cid oid), ¬ e.1 = s.path) ∧
    (∀ kc ∈ (d.removeObject cid oid).clients,
        hashLookup kc.2.subscribedSensors s.path = none) := by
  have hmemc : (cid, cont) ∈ d.containers := hashLookup_mem _ _ _ hc
  have hrem : d.removeObject cid oid =
      { d with
          containers := hashInsert d.containers cid
            { cont with objects := cont.objects.filter (fun o => ¬ o.id = oid) },
          clients := d.clients.map (fun kc =>
            (kc.1, obj.sensors.foldl (fun cl s => applySensorRemoved cl s.path) kc.2)) } := by
    simp only [DaemonState.removeObject, hc, ho]
  constructor
  · intro e he hpath
    rw [hrem] at he
    rcases mem_allSensors _ e he with ⟨kc, hkc, hcase⟩
    rcases mem_hashInsert_strong _ _ _ _ hkeys hkc with hkceq | ⟨hkc2, hne⟩
    · subst hkceq
      simp only at hcase
      rcases hcase with h | ⟨o, hoo, h⟩
      · exact hcid (cid, cont) hmemc (h.symm.trans hpath)
      · have hof := List.mem_filter.mp hoo
        have hne2 : ¬ o.id = oid := by simpa using hof.2
        rcases h with h | ⟨t, ht, h⟩
        · exact hop (cid, cont) hmemc o hof.1 (h.symm.trans hpath)
        · exact hne2 (huniq (cid, cont) hmemc o hof.1 t ht (h.symm.trans hpath)).2
    · rcases hcase with h | ⟨o, hoo, h⟩
      · exact hcid kc hkc2 (h.symm.trans hpath)
      · rcases h with h | ⟨t, ht, h⟩
        · exact hop kc hkc2 o hoo (h.symm.trans hpath)
        · exact hne (huniq kc hkc2 o hoo t ht (h.symm.trans hpath)).1
  · intro kc hkc
    rw [hrem] at hkc
    simp only [List.mem_map] at hkc
    rcases hkc with ⟨kc0, _, rfl⟩
    exact removeFold_lookup obj.sensors s hs kc0.2

/-- Witness for C9: removing `cpu0` from the concrete registry while a
client is subscribed to `usage` purges `cpu/cpu0/usage` from discovery and
from that client's subscribed set. -/
theorem object_destroyed_while_subscribed_witness :
    (∀ e ∈ allSensors ((DaemonState.mk [] cpuRegistry
        [("cl", (subscribeSensors cpuRegistry (ClientState.init, [])
          ["cpu/cpu0/usage"]).1)]).removeObject "cpu" "cpu0"),
      ¬ e.1 = usageSensor.path) ∧
    (∀ kc ∈ ((DaemonState.mk [] cpuRegistry
        [("cl", (subscribeSensors cpuRegistry (ClientState.init, [])
          ["cpu/cpu0/usage"]).1)]).removeObject "cpu" "cpu0").clients,
      hashLookup kc.2.subscribedSensors usageSensor.path = none) :=
  object_destroyed_while_subscribed
    ⟨[], cpuRegistry, [("cl", (subscribeSensors cpuRegistry (ClientState.init, [])
      ["cpu/cpu0/usage"]).1)]⟩
    "cpu" "cpu0" cpuContainer cpu0Object usageSensor
    (by decide) (by decide) (by decide) (by decide) (by decide) (by decide) (by decide)

end KSysStats
